import Mathlib

/-!
Shallow embedding of the openclaw-bring-integration repository
(src/bring_client.py and src/bring_integration.py) and proofs about the
list-resolver / default-list contract.

Modelling conventions:
* The vendor API records (list summaries, items) are typed structures,
  following the record shapes the vendor contract guarantees
  (`{listUuid, name}` for catalog entries, `{purchase, recently}` for
  list contents).  String values are arbitrary, including the empty
  string, so Python truthiness of strings is modelled explicitly.
* `async` code is sequential request/response; it is embedded as
  explicit state passing.  Fallible operations return `Except Err`.
* Network activity is made observable: every operation reports how many
  `load_lists` calls it made and the exact item-endpoint calls it issued.
* Python `str.lower` is modelled by `pyLower`, which lowercases every
  character of the string.
-/

/-- A catalog entry as returned by the remote service
(`{"listUuid": ..., "name": ...}`). -/
structure ListEntry where
  listUuid : String
  name : String
deriving DecidableEq, Repr

/-- An item of a shopping list (`{"name": ..., "specification": ...}`). -/
structure BItem where
  name : String
  specification : String
deriving DecidableEq, Repr

/-- The contents of one list: `{"purchase": [...], "recently": [...]}`. -/
structure ListContents where
  purchase : List BItem
  recently : List BItem
deriving DecidableEq, Repr

/-- Errors raised by the embedded code.  `listNotFound` and
`noDefaultList` model the two `ValueError`s of
`bring_integration.py` (lines 172 and 135); `loginFailed` models a
transport/authentication failure raised by `bring.login()`. -/
inductive Err where
  | loginFailed
  | listNotFound (name : String)
  | noDefaultList
deriving DecidableEq, Repr

instance {ε α : Type} [DecidableEq ε] [DecidableEq α] :
    DecidableEq (Except ε α) := fun x y =>
  match x, y with
  | Except.ok a, Except.ok b =>
    if h : a = b then isTrue (by rw [h])
    else isFalse (fun hc => h (Except.ok.inj hc))
  | Except.ok _, Except.error _ => isFalse (fun hc => Except.noConfusion hc)
  | Except.error _, Except.ok _ => isFalse (fun hc => Except.noConfusion hc)
  | Except.error a, Except.error b =>
    if h : a = b then isTrue (by rw [h])
    else isFalse (fun hc => h (Except.error.inj hc))

/-- Python `str.lower`: lowercase every character of the string. -/
def pyLower (s : String) : String := ⟨s.data.map Char.toLower⟩

/-- A normalized batch element sent to `batch_update_list`
(`bring_client.py:190`).  `itemId` is `none` when the Python value is
`None` (both `name` and `itemId` keys absent); `spec` is `none` when the
`"spec"` key is absent (the plain-string case in `add_items`). -/
structure BringItem where
  itemId : Option String
  spec : Option String
deriving DecidableEq, Repr

/-- One call to a remote item endpoint (everything except `load_lists`). -/
inductive ItemCall where
  | getList (uuid : String)
  | saveItem (uuid name spec : String)
  | completeItem (uuid name : String)
  | removeItem (uuid name : String)
  | batchAdd (uuid : String) (items : List BringItem)
deriving DecidableEq, Repr

/-- The remote service as seen by one session: whether `login()` raises,
the `"lists"` field of the `load_lists` response (`none` = field
missing), and the contents served by `get_list` for each uuid. -/
structure Env where
  loginFails : Bool
  listsResponse : Option (List ListEntry)
  itemsFor : String → ListContents

/-- State of a `BringClient` object (`bring_client.py:20-32`).
`connected` models `self.session is not None` (which coincides with
`self.bring is not None`: both are set in `connect` and cleared in
`disconnect`); `sessionOpen` tracks whether the `aiohttp.ClientSession`
created by `connect` has been closed; `listsCache` is
`self._lists_cache`. -/
structure ClientState where
  connected : Bool := false
  sessionOpen : Bool := false
  listsCache : Option (List ListEntry) := none
deriving DecidableEq, Repr

namespace BringClient

/-- Model of `BringClient.connect` (bring_client.py:43-49): if `self.session is
None`, create the aiohttp session, create the `Bring` object, then
`await self.bring.login()`.  If `login` raises, the exception propagates
with the session already created and not closed. -/
def connect (st : ClientState) (env : Env) : Except Err Unit × ClientState :=
  if st.connected then (Except.ok (), st)
  else
    let st := { st with connected := true, sessionOpen := true }
    if env.loginFails then (Except.error Err.loginFailed, st)
    else (Except.ok (), st)

/-- Model of `BringClient.disconnect` (bring_client.py:51-57): if `self.session`,
close it and clear `session`/`bring`. -/
def disconnect (st : ClientState) : ClientState :=
  if st.connected then { st with connected := false, sessionOpen := false }
  else st

/-- The `if not self.bring: await self.connect()` prelude that starts
every API method of `BringClient`. -/
def ensureConn (st : ClientState) (env : Env) : Except Err Unit × ClientState :=
  if st.connected then (Except.ok (), st) else connect st env

/-- Model of `BringClient.get_lists` (bring_client.py:59-77).  The third
component counts `load_lists` network calls made by this invocation. -/
def get_lists (force_refresh : Bool) (st : ClientState) (env : Env) :
    Except Err (List ListEntry) × ClientState × Nat :=
  match ensureConn st env with
  | (Except.error e, st) => (Except.error e, st, 0)
  | (Except.ok _, st) =>
    if st.listsCache.isNone || force_refresh then
      let fetched := env.listsResponse.getD []
      (Except.ok fetched, { st with listsCache := some fetched }, 1)
    else
      (Except.ok (st.listsCache.getD []), st, 0)

/-- Model of `BringClient.get_list_by_name` (bring_client.py:79-93): fetch the
lists via `get_lists()` (no refresh), return the first entry whose
lowercased name equals the lowercased argument, else `None`. -/
def get_list_by_name (name : String) (st : ClientState) (env : Env) :
    Except Err (Option ListEntry) × ClientState × Nat :=
  match get_lists false st env with
  | (Except.error e, st, k) => (Except.error e, st, k)
  | (Except.ok lists, st, k) =>
    (Except.ok (lists.find? (fun lst => pyLower lst.name == pyLower name)), st, k)

/-- Model of `BringClient.get_items` (bring_client.py:95-110). -/
def get_items (list_uuid : String) (st : ClientState) (env : Env) :
    Except Err ListContents × ClientState × List ItemCall :=
  match ensureConn st env with
  | (Except.error e, st) => (Except.error e, st, [])
  | (Except.ok _, st) =>
    (Except.ok (env.itemsFor list_uuid), st, [ItemCall.getList list_uuid])

/-- Model of `BringClient.add_item` (bring_client.py:112-134). -/
def add_item (list_uuid item_name specification : String) (st : ClientState)
    (env : Env) : Except Err Bool × ClientState × List ItemCall :=
  match ensureConn st env with
  | (Except.error e, st) => (Except.error e, st, [])
  | (Except.ok _, st) =>
    (Except.ok true, st, [ItemCall.saveItem list_uuid item_name specification])

/-- Model of `BringClient.complete_item` (bring_client.py:136-152). -/
def complete_item (list_uuid item_name : String) (st : ClientState)
    (env : Env) : Except Err Bool × ClientState × List ItemCall :=
  match ensureConn st env with
  | (Except.error e, st) => (Except.error e, st, [])
  | (Except.ok _, st) =>
    (Except.ok true, st, [ItemCall.completeItem list_uuid item_name])

/-- Model of `BringClient.remove_item` (bring_client.py:154-170). -/
def remove_item (list_uuid item_name : String) (st : ClientState)
    (env : Env) : Except Err Bool × ClientState × List ItemCall :=
  match ensureConn st env with
  | (Except.error e, st) => (Except.error e, st, [])
  | (Except.ok _, st) =>
    (Except.ok true, st, [ItemCall.removeItem list_uuid item_name])

/-- Model of `BringClient.batch_add_items` (bring_client.py:172-196). -/
def batch_add_items (list_uuid : String) (items : List BringItem)
    (st : ClientState) (env : Env) :
    Except Err Bool × ClientState × List ItemCall :=
  match ensureConn st env with
  | (Except.error e, st) => (Except.error e, st, [])
  | (Except.ok _, st) =>
    (Except.ok true, st, [ItemCall.batchAdd list_uuid items])

end BringClient

/-- State of a `BringIntegration` object (bring_integration.py:22-41).
`clientInit` models `self.client is not None`; `defaultListUuid` is
`self._default_list_uuid`. -/
structure IntegrationState where
  clientInit : Bool := false
  client : ClientState := {}
  defaultListUuid : Option String := none
deriving DecidableEq, Repr

/-- Python truthiness of an optional string (`if list_name:` /
`elif self._default_list_uuid:`): `None` and `""` are falsy. -/
def pyTruthy : Option String → Bool
  | some s => s != ""
  | none => false

/-- Result of an item operation of `BringIntegration`: the value or
error, the final state, the number of `load_lists` network calls, and
the item-endpoint calls issued. -/
structure Out (α : Type) where
  result : Except Err α
  state : IntegrationState
  loadListsCalls : Nat
  itemCalls : List ItemCall
deriving Repr

namespace BringIntegration

/-- Model of `BringIntegration.initialize` (bring_integration.py:43-48): if
`self.client is None`, construct a fresh `BringClient` and `await
self.client.connect()`.  If `connect` raises, `self.client` stays set.
(Named `initializeState` in this development.) -/
def initializeState (st : IntegrationState) (env : Env) :
    Except Err Unit × IntegrationState :=
  if st.clientInit then (Except.ok (), st)
  else
    match BringClient.connect ({} : ClientState) env with
    | (r, c) => (r, { st with clientInit := true, client := c })

/-- Model of `BringIntegration.cleanup` (bring_integration.py:50-54): if
`self.client`, disconnect it and set `self.client = None`. -/
def cleanup (st : IntegrationState) : IntegrationState :=
  if st.clientInit then
    { st with clientInit := false, client := BringClient.disconnect st.client }
  else st

/-- Model of `BringIntegration.get_lists` (bring_integration.py:67-84). -/
def get_lists (st : IntegrationState) (env : Env) :
    Except Err (List ListEntry) × IntegrationState × Nat :=
  match initializeState st env with
  | (Except.error e, st) => (Except.error e, st, 0)
  | (Except.ok _, st) =>
    match BringClient.get_lists false st.client env with
    | (r, c, k) => (r, { st with client := c }, k)

/-- Model of `BringIntegration.find_list` (bring_integration.py:86-97). -/
def find_list (name : String) (st : IntegrationState) (env : Env) :
    Except Err (Option ListEntry) × IntegrationState × Nat :=
  match initializeState st env with
  | (Except.error e, st) => (Except.error e, st, 0)
  | (Except.ok _, st) =>
    match BringClient.get_list_by_name name st.client env with
    | (r, c, k) => (r, { st with client := c }, k)

/-- Model of `BringIntegration.set_default_list` (bring_integration.py:99-114):
resolve the name via `find_list`; a found entry (a non-empty dict, hence
truthy) sets `self._default_list_uuid` and returns `True`; otherwise
return `False`. -/
def set_default_list (name : String) (st : IntegrationState) (env : Env) :
    Except Err Bool × IntegrationState × Nat :=
  match find_list name st env with
  | (Except.error e, st, k) => (Except.error e, st, k)
  | (Except.ok (some lst), st, k) =>
    (Except.ok true, { st with defaultListUuid := some lst.listUuid }, k)
  | (Except.ok none, st, k) => (Except.ok false, st, k)

/-- Model of `BringIntegration._get_list_uuid` (bring_integration.py:116-138):
`if list_name: return list_name; elif self._default_list_uuid: return
it; else raise ValueError(...)`.  Both tests are Python truthiness, so
an empty string behaves like `None`. -/
def get_list_uuid (list_name : Option String) (st : IntegrationState) :
    Except Err String :=
  if pyTruthy list_name then Except.ok (list_name.getD "")
  else if pyTruthy st.defaultListUuid then Except.ok (st.defaultListUuid.getD "")
  else Except.error Err.noDefaultList

/-- The list-resolution block repeated verbatim in each item operation
(bring_integration.py:169-175, 198-204, 225-231, 263-269, 290-296):
`if list_name:` resolve via `find_list` and raise
`ValueError(f"List '{list_name}' not found")` when absent, `else`
use `self._get_list_uuid()` (called with no argument). -/
def resolveListUuid (list_name : Option String) (st : IntegrationState)
    (env : Env) : Except Err String × IntegrationState × Nat :=
  if pyTruthy list_name then
    match find_list (list_name.getD "") st env with
    | (Except.error e, st, k) => (Except.error e, st, k)
    | (Except.ok (some lst), st, k) => (Except.ok lst.listUuid, st, k)
    | (Except.ok none, st, k) =>
      (Except.error (Err.listNotFound (list_name.getD "")), st, k)
  else
    (get_list_uuid none st, st, 0)

/-- Model of `BringIntegration.get_items` (bring_integration.py:142-177). -/
def get_items (list_name : Option String) (st : IntegrationState) (env : Env) :
    Out ListContents :=
  match initializeState st env with
  | (Except.error e, st) => ⟨Except.error e, st, 0, []⟩
  | (Except.ok _, st) =>
    match resolveListUuid list_name st env with
    | (Except.error e, st, k) => ⟨Except.error e, st, k, []⟩
    | (Except.ok uuid, st, k) =>
      match BringClient.get_items uuid st.client env with
      | (r, c, calls) => ⟨r, { st with client := c }, k, calls⟩

/-- Model of `BringIntegration.add_item` (bring_integration.py:179-206). -/
def add_item (item_name specification : String) (list_name : Option String)
    (st : IntegrationState) (env : Env) : Out Bool :=
  match initializeState st env with
  | (Except.error e, st) => ⟨Except.error e, st, 0, []⟩
  | (Except.ok _, st) =>
    match resolveListUuid list_name st env with
    | (Except.error e, st, k) => ⟨Except.error e, st, k, []⟩
    | (Except.ok uuid, st, k) =>
      match BringClient.add_item uuid item_name specification st.client env with
      | (r, c, calls) => ⟨r, { st with client := c }, k, calls⟩

/-- An element of the duck-typed `items` argument of
`BringIntegration.add_items`: a plain string, a dict (modelled by the
values of its `"name"`, `"itemId"`, `"spec"`, `"specification"` keys,
`none` = key absent), or a value of any other type. -/
inductive ItemInput where
  | str (s : String)
  | dict (name itemId spec specification : Option String)
  | other
deriving DecidableEq, Repr

/-- The normalization loop of `BringIntegration.add_items`
(bring_integration.py:233-242): strings become `{"itemId": item}`;
dicts become `{"itemId": item.get("name", item.get("itemId")),
"spec": item.get("spec", item.get("specification", ""))}`; anything
else is skipped. -/
def formatItems : List ItemInput → List BringItem
  | [] => []
  | ItemInput.str s :: rest => ⟨some s, none⟩ :: formatItems rest
  | ItemInput.dict n i sp spec :: rest =>
    ⟨n.orElse (fun _ => i), some (sp.getD (spec.getD ""))⟩ :: formatItems rest
  | ItemInput.other :: rest => formatItems rest

/-- Model of `BringIntegration.add_items` (bring_integration.py:208-244). -/
def add_items (items : List ItemInput) (list_name : Option String)
    (st : IntegrationState) (env : Env) : Out Bool :=
  match initializeState st env with
  | (Except.error e, st) => ⟨Except.error e, st, 0, []⟩
  | (Except.ok _, st) =>
    match resolveListUuid list_name st env with
    | (Except.error e, st, k) => ⟨Except.error e, st, k, []⟩
    | (Except.ok uuid, st, k) =>
      match BringClient.batch_add_items uuid (formatItems items) st.client env with
      | (r, c, calls) => ⟨r, { st with client := c }, k, calls⟩

/-- Model of `BringIntegration.complete_item` (bring_integration.py:246-271). -/
def complete_item (item_name : String) (list_name : Option String)
    (st : IntegrationState) (env : Env) : Out Bool :=
  match initializeState st env with
  | (Except.error e, st) => ⟨Except.error e, st, 0, []⟩
  | (Except.ok _, st) =>
    match resolveListUuid list_name st env with
    | (Except.error e, st, k) => ⟨Except.error e, st, k, []⟩
    | (Except.ok uuid, st, k) =>
      match BringClient.complete_item uuid item_name st.client env with
      | (r, c, calls) => ⟨r, { st with client := c }, k, calls⟩

/-- Model of `BringIntegration.remove_item` (bring_integration.py:273-298). -/
def remove_item (item_name : String) (list_name : Option String)
    (st : IntegrationState) (env : Env) : Out Bool :=
  match initializeState st env with
  | (Except.error e, st) => ⟨Except.error e, st, 0, []⟩
  | (Except.ok _, st) =>
    match resolveListUuid list_name st env with
    | (Except.error e, st, k) => ⟨Except.error e, st, k, []⟩
    | (Except.ok uuid, st, k) =>
      match BringClient.remove_item uuid item_name st.client env with
      | (r, c, calls) => ⟨r, { st with client := c }, k, calls⟩

/-- Model of `async with BringIntegration(...)` (bring_integration.py:56-63):
`__aenter__` awaits `initialize`; if that raises, Python does not run
`__aexit__` and the exception propagates.  Otherwise the body runs and
`__aexit__` awaits `cleanup` on both normal and exceptional exit of the
body. -/
def withSession (body : IntegrationState → Env → Except Err Unit × IntegrationState)
    (env : Env) : Except Err Unit × IntegrationState :=
  match initializeState {} env with
  | (Except.error e, st) => (Except.error e, st)
  | (Except.ok _, st) =>
    match body st env with
    | (r, st) => (r, cleanup st)

end BringIntegration

/-! ## Concrete inputs used by witnesses -/

/-- A remote service that accepts the login, has no `"lists"` field in
its `load_lists` response, and serves empty contents for every list. -/
def envW : Env :=
  { loginFails := false, listsResponse := none, itemsFor := fun _ => ⟨[], []⟩ }

/-- A two-entry catalog whose names collide case-insensitively. -/
def catW : List ListEntry := [⟨"u1", "Foo"⟩, ⟨"u2", "foo"⟩]

/-- A connected client state whose cache holds `catW`. -/
def stW : ClientState :=
  { connected := true, sessionOpen := true, listsCache := some catW }

/-- The state of an integration session that is initialized and
connected, with catalog cache `catW` and no default list. -/
def istW : IntegrationState :=
  { clientInit := true, client := stW, defaultListUuid := none }

/-- An initialized, connected integration state whose cached catalog
holds a single entry named `"X"` with the **empty string** as uuid. -/
def stE : IntegrationState :=
  { clientInit := true,
    client := { connected := true, sessionOpen := true,
                listsCache := some [⟨"", "X"⟩] },
    defaultListUuid := none }

/-- The catalog that a no-refresh `get_lists` call on a connected
client returns: the cache when present, otherwise the remote lists. -/
def effCatalog (c : ClientState) (env : Env) : List ListEntry :=
  match c.listsCache with
  | some L => L
  | none => env.listsResponse.getD []

/-- The state of an integration session that is initialized and
connected (cache `catW`) with default list uuid `"du"`. -/
def istD : IntegrationState :=
  { clientInit := true, client := stW, defaultListUuid := some "du" }


/-! ## Helper lemmas -/

/-- Lemma: `List.find?` returns the first element satisfying the predicate:
the list splits as `pre ++ a :: post` with nothing in `pre` matching. -/
theorem find?_first {α : Type} (p : α → Bool) (L : List α) (a : α)
    (h : L.find? p = some a) :
    ∃ pre post, L = pre ++ a :: post ∧ p a = true ∧ ∀ x ∈ pre, p x = false := by
  induction L with
  | nil => simp [List.find?] at h
  | cons x L ih =>
    by_cases hx : p x = true
    · rw [List.find?_cons_of_pos _ hx] at h
      injection h with h
      subst h
      exact ⟨[], L, rfl, hx, by simp⟩
    · rw [List.find?_cons_of_neg _ (by simpa using hx)] at h
      obtain ⟨pre, post, hL, hpa, hpre⟩ := ih h
      refine ⟨x :: pre, post, by rw [hL, List.cons_append], hpa, ?_⟩
      intro y hy
      rcases List.mem_cons.mp hy with rfl | hy
      · simpa using hx
      · exact hpre y hy

/-! ## C1 -/

/-- C1: for every catalog `L` returned by `get_lists` and every name,
`get_list_by_name` returns exactly the first entry of `L` whose name
matches case-insensitively: it returns an entry iff some entry of `L`
matches; when it returns `none` no entry matches; and a returned entry
matches and is preceded only by non-matching entries (so with several
matches exactly one — the first — is returned, never none). -/
theorem C1_get_list_by_name_spec (name : String) (st st2 : ClientState)
    (env : Env) (L : List ListEntry) (k : Nat)
    (hc : BringClient.get_lists false st env = (Except.ok L, st2, k)) :
    BringClient.get_list_by_name name st env =
      (Except.ok (L.find? (fun lst => pyLower lst.name == pyLower name)), st2, k) ∧
    ((∃ lst ∈ L, pyLower lst.name = pyLower name) ↔
      ∃ r, L.find? (fun lst => pyLower lst.name == pyLower name) = some r) ∧
    (L.find? (fun lst => pyLower lst.name == pyLower name) = none ↔
      ∀ lst ∈ L, pyLower lst.name ≠ pyLower name) ∧
    (∀ r, L.find? (fun lst => pyLower lst.name == pyLower name) = some r →
      pyLower r.name = pyLower name ∧
      ∃ pre post, L = pre ++ r :: post ∧
        ∀ x ∈ pre, pyLower x.name ≠ pyLower name) := by
  refine ⟨?_, ?_, ?_, ?_⟩
  · unfold BringClient.get_list_by_name
    rw [hc]
  · constructor
    · rintro ⟨lst, hl, he⟩
      have hs : (L.find? (fun lst => pyLower lst.name == pyLower name)).isSome :=
        List.find?_isSome.mpr ⟨lst, hl, by simpa using he⟩
      exact Option.isSome_iff_exists.mp hs
    · rintro ⟨r, hr⟩
      obtain ⟨x, hx, hpx⟩ :=
        List.find?_isSome.mp (Option.isSome_iff_exists.mpr ⟨r, hr⟩)
      exact ⟨x, hx, by simpa using hpx⟩
  · rw [List.find?_eq_none]
    constructor
    · intro h lst hl
      simpa using h lst hl
    · intro h lst hl
      simpa using h lst hl
  · intro r hr
    have h1 := List.find?_some hr
    obtain ⟨pre, post, hL, _, hpre⟩ := find?_first _ _ _ hr
    exact ⟨by simpa using h1, pre, post, hL,
      fun x hx => by simpa using hpre x hx⟩

/-- Witness for C1: on the concrete cached catalog `catW` (names
`"Foo"` and `"foo"`), looking up `"FOO"` returns the first entry. -/
theorem C1_get_list_by_name_spec_witness :
    BringClient.get_list_by_name "FOO" stW envW =
      (Except.ok (catW.find? (fun lst => pyLower lst.name == pyLower "FOO")),
        stW, 0) ∧
    catW.find? (fun lst => pyLower lst.name == pyLower "FOO") =
      some ⟨"u1", "Foo"⟩ :=
  ⟨(C1_get_list_by_name_spec "FOO" stW stW envW catW 0 (by decide)).1, by decide⟩

/-! ## Characterization helpers -/

theorem ensureConn_of_connected (st : ClientState) (env : Env)
    (h : st.connected = true) :
    BringClient.ensureConn st env = (Except.ok (), st) := by
  simp [BringClient.ensureConn, h]

theorem initializeState_of_inited (st : IntegrationState) (env : Env)
    (h : st.clientInit = true) :
    BringIntegration.initializeState st env = (Except.ok (), st) := by
  simp [BringIntegration.initializeState, h]

theorem initializeState_default (st : IntegrationState) (env : Env) :
    (BringIntegration.initializeState st env).2.defaultListUuid =
      st.defaultListUuid := by
  unfold BringIntegration.initializeState
  by_cases h : st.clientInit <;> simp [h]

theorem get_lists_client_default (st : IntegrationState) (env : Env) :
    (BringIntegration.get_lists st env).2.1.defaultListUuid =
      st.defaultListUuid := by
  unfold BringIntegration.get_lists
  rcases hi : BringIntegration.initializeState st env with ⟨r, st1⟩
  have hd : st1.defaultListUuid = st.defaultListUuid := by
    have := initializeState_default st env
    rw [hi] at this
    exact this
  cases r with
  | error e => simpa using hd
  | ok _ =>
    rcases hg : BringClient.get_lists false st1.client env with ⟨r2, c, k⟩
    simpa using hd

theorem find_list_default (name : String) (st : IntegrationState) (env : Env) :
    (BringIntegration.find_list name st env).2.1.defaultListUuid =
      st.defaultListUuid := by
  unfold BringIntegration.find_list
  rcases hi : BringIntegration.initializeState st env with ⟨r, st1⟩
  have hd : st1.defaultListUuid = st.defaultListUuid := by
    have := initializeState_default st env
    rw [hi] at this
    exact this
  cases r with
  | error e => simpa using hd
  | ok _ =>
    rcases hg : BringClient.get_list_by_name name st1.client env with ⟨r2, c, k⟩
    simpa using hd

/-! ## C3 -/

/-- C3: `set_default_list name` returns `True` iff `find_list name`
finds an entry; in that case the entry's uuid is stored as the session
default; when it returns `False` — and also whenever it does not return
`True` — the previously stored default is unchanged. -/
theorem C3_set_default_list_spec (name : String) (st : IntegrationState)
    (env : Env) :
    ((BringIntegration.set_default_list name st env).1 = Except.ok true ↔
      ∃ lst, (BringIntegration.find_list name st env).1 = Except.ok (some lst)) ∧
    (∀ lst, (BringIntegration.find_list name st env).1 = Except.ok (some lst) →
      BringIntegration.set_default_list name st env =
        (Except.ok true,
          { (BringIntegration.find_list name st env).2.1 with
              defaultListUuid := some lst.listUuid },
          (BringIntegration.find_list name st env).2.2)) ∧
    ((BringIntegration.find_list name st env).1 = Except.ok none →
      (BringIntegration.set_default_list name st env).1 = Except.ok false) ∧
    ((BringIntegration.set_default_list name st env).1 ≠ Except.ok true →
      (BringIntegration.set_default_list name st env).2.1.defaultListUuid =
        st.defaultListUuid) := by
  have hfd := find_list_default name st env
  unfold BringIntegration.set_default_list
  rcases hf : BringIntegration.find_list name st env with ⟨r, st1, k⟩
  rw [hf] at hfd
  simp only at hfd
  cases r with
  | error e =>
    refine ⟨by simp, by simp, by simp, ?_⟩
    intro _
    simpa using hfd
  | ok o =>
    cases o with
    | none =>
      refine ⟨by simp, by simp, by simp, ?_⟩
      intro _
      simpa using hfd
    | some lst =>
      refine ⟨by simp, ?_, by simp, ?_⟩
      · intro lst2 h2
        injection h2 with h2
        injection h2 with h2
        subst h2
        rfl
      · intro hne
        exact absurd rfl hne

/-- Witness for C3: with catalog `catW` cached, `set_default_list "foo"`
matches the entry `⟨"u1", "Foo"⟩` case-insensitively, stores `"u1"` and
returns `True`. -/
theorem C3_set_default_list_spec_witness :
    BringIntegration.set_default_list "foo" istW envW =
      (Except.ok true,
        { (BringIntegration.find_list "foo" istW envW).2.1 with
            defaultListUuid := some "u1" },
        (BringIntegration.find_list "foo" istW envW).2.2) :=
  (C3_set_default_list_spec "foo" istW envW).2.1 ⟨"u1", "Foo"⟩ (by decide)

theorem get_lists_post (st : ClientState) (env : Env) (force : Bool)
    (hconn : st.connected = true) :
    (BringClient.get_lists force st env).2.1.connected = true ∧
    (BringClient.get_lists force st env).2.1.listsCache.isSome = true := by
  unfold BringClient.get_lists
  rw [ensureConn_of_connected st env hconn]
  by_cases h : (st.listsCache.isNone || force) = true
  · simp [h, hconn]
  · rcases ho : st.listsCache with _ | L
    · simp [ho] at h
    · have hf : force = false := by
        simpa [ho] using h
      simp [hconn, ho, hf]

theorem get_lists_cached_calls (st : ClientState) (env : Env)
    (hconn : st.connected = true) (hs : st.listsCache.isSome = true) :
    (BringClient.get_lists false st env).2.2 = 0 := by
  unfold BringClient.get_lists
  rw [ensureConn_of_connected st env hconn]
  rcases ho : st.listsCache with _ | L
  · rw [ho] at hs
    simp at hs
  · simp [ho]

/-! ## C2 -/

/-- Counterexample to C2 as stated: `get_lists` checks only
`self._lists_cache is None`, so with an **empty** cached catalog
(`some []`) and `force_refresh = False` it makes **zero** network calls
and returns the cached empty list — it neither queries the remote
service (whose catalog here contains `⟨"u9", "Remote"⟩`) nor replaces
the cache, while the claim demands exactly one query in that case. -/
theorem C2_counterexample :
    BringClient.get_lists false
        { connected := true, sessionOpen := true, listsCache := some [] }
        { loginFails := false, listsResponse := some [⟨"u9", "Remote"⟩],
          itemsFor := fun _ => ⟨[], []⟩ } =
      (Except.ok [],
        { connected := true, sessionOpen := true, listsCache := some [] },
        0) := by decide

/-- C2 (amended): on a connected client, `get_lists` returns the cached
catalog without a network call unless the cache is **absent** (`None`,
i.e. never fetched or a fresh client) or `force_refresh` is true; in
those cases it queries the remote service exactly once, replaces the
cache with the fetched value, and returns it.  An empty cached catalog
is served from the cache without a network call.  After any call the
cache is present, so repeated `get_lists false` calls issue at most one
network call in total, and every `get_lists true` call issues exactly
one network call and replaces the cached value. -/
theorem C2_get_lists_cache (st : ClientState) (env : Env) (force : Bool)
    (hconn : st.connected = true) :
    BringClient.get_lists force st env =
      (if st.listsCache.isNone || force then
        (Except.ok (env.listsResponse.getD []),
          { st with listsCache := some (env.listsResponse.getD []) }, 1)
      else (Except.ok (st.listsCache.getD []), st, 0)) ∧
    (∀ L, st.listsCache = some L → force = false →
      BringClient.get_lists force st env = (Except.ok L, st, 0)) ∧
    (BringClient.get_lists force st env).2.1.listsCache.isSome = true ∧
    (BringClient.get_lists false
      (BringClient.get_lists force st env).2.1 env).2.2 = 0 ∧
    (force = true →
      (BringClient.get_lists force st env).2.2 = 1 ∧
      (BringClient.get_lists force st env).2.1.listsCache =
        some (env.listsResponse.getD [])) := by
  have hmain : BringClient.get_lists force st env =
      (if st.listsCache.isNone || force then
        (Except.ok (env.listsResponse.getD []),
          { st with listsCache := some (env.listsResponse.getD []) }, 1)
      else (Except.ok (st.listsCache.getD []), st, 0)) := by
    unfold BringClient.get_lists
    rw [ensureConn_of_connected st env hconn]
  refine ⟨hmain, ?_, ?_, ?_, ?_⟩
  · intro L hL hf
    rw [hmain, hL, hf]
    simp
  · rw [hmain]
    by_cases h : (st.listsCache.isNone || force) = true
    · simp [h]
    · simp only [h]
      simp only [Bool.or_eq_true, Option.isNone_iff_eq_none] at h
      push_neg at h
      rcases ho : st.listsCache with _ | L
      · exact absurd ho h.1
      · simp [ho]
  · exact get_lists_cached_calls _ env (get_lists_post st env force hconn).1
      (get_lists_post st env force hconn).2
  · intro hf
    rw [hmain]
    simp [hf]

/-- Witness for C2 (amended): on the connected state `stW`, whose cache
holds `catW`, `get_lists false` returns the cached catalog with zero
network calls. -/
theorem C2_get_lists_cache_witness :
    stW.connected = true ∧
    BringClient.get_lists false stW envW = (Except.ok catW, stW, 0) :=
  ⟨rfl, (C2_get_lists_cache stW envW false rfl).2.1 catW rfl rfl⟩

/-! ## C4 -/

/-- Helper: when `find_list` finds an entry, `set_default_list` stores
its uuid and returns `True`. -/
theorem set_default_found (name : String) (st : IntegrationState) (env : Env)
    (lst : ListEntry)
    (hf : (BringIntegration.find_list name st env).1 = Except.ok (some lst)) :
    BringIntegration.set_default_list name st env =
      (Except.ok true,
        { (BringIntegration.find_list name st env).2.1 with
            defaultListUuid := some lst.listUuid },
        (BringIntegration.find_list name st env).2.2) := by
  unfold BringIntegration.set_default_list
  rcases hq : BringIntegration.find_list name st env with ⟨r, st1, k⟩
  rw [hq] at hf
  simp only at hf
  subst hf
  rfl

/-- Counterexample to C4 as stated: the catalog entry `⟨"", "X"⟩` has
the empty string as identifier.  `set_default_list "X"` succeeds and
stores `""`, but resolving with no list name afterwards still raises
the no-default error (the code's `elif self._default_list_uuid:` is a
truthiness test, and `""` is falsy) instead of returning X's
identifier. -/
theorem C4_counterexample :
    (BringIntegration.set_default_list "X" stE envW).1 = Except.ok true ∧
    BringIntegration.get_list_uuid none
        (BringIntegration.set_default_list "X" stE envW).2.1 =
      Except.error Err.noDefaultList := by decide

/-- C4 (amended): resolving with no list name (`_get_list_uuid` with
`list_name` absent) fails with `NoDefaultListConfigured` when no
default has ever been set; after a successful `set_default_list("X")`
it returns X's identifier **provided that identifier is non-empty**
(when the stored identifier is the empty string, the truthiness test
on `self._default_list_uuid` fails and the no-default error is raised
instead). -/
theorem C4_get_list_uuid_default (st : IntegrationState) (env : Env)
    (name : String) :
    (st.defaultListUuid = none →
      BringIntegration.get_list_uuid none st = Except.error Err.noDefaultList) ∧
    (∀ lst, (BringIntegration.find_list name st env).1 = Except.ok (some lst) →
      lst.listUuid ≠ "" →
      BringIntegration.get_list_uuid none
          (BringIntegration.set_default_list name st env).2.1 =
        Except.ok lst.listUuid) := by
  constructor
  · intro h
    simp [BringIntegration.get_list_uuid, pyTruthy, h]
  · intro lst hf hne
    rw [set_default_found name st env lst hf]
    simp [BringIntegration.get_list_uuid, pyTruthy, hne]

/-- Witness for C4 (amended): before any `set_default_list` the
resolver fails with the no-default error; after `set_default_list
"Foo"` stores `"u1"` (non-empty), it returns `"u1"`. -/
theorem C4_get_list_uuid_default_witness :
    BringIntegration.get_list_uuid none istW = Except.error Err.noDefaultList ∧
    BringIntegration.get_list_uuid none
        (BringIntegration.set_default_list "Foo" istW envW).2.1 =
      Except.ok "u1" :=
  ⟨(C4_get_list_uuid_default istW envW "Foo").1 rfl,
   (C4_get_list_uuid_default istW envW "Foo").2 ⟨"u1", "Foo"⟩
     (by decide) (by decide)⟩

/-! ## C6 -/

/-- C6: `get_lists` never raises for an empty catalog.  On a connected
client, when the remote `load_lists` response has no `"lists"` field
(`none`) or an empty list of lists, a forced fetch returns the empty
sequence and caches it, and so does any fetch on an empty cache. -/
theorem C6_get_lists_empty_catalog (st : ClientState) (env : Env) (force : Bool)
    (hconn : st.connected = true)
    (hresp : env.listsResponse = none ∨ env.listsResponse = some []) :
    (BringClient.get_lists true st env).1 = Except.ok [] ∧
    (BringClient.get_lists true st env).2.1.listsCache = some [] ∧
    (st.listsCache = none →
      BringClient.get_lists force st env =
        (Except.ok [], { st with listsCache := some [] }, 1)) := by
  have hget : env.listsResponse.getD [] = [] := by
    rcases hresp with h | h <;> simp [h]
  refine ⟨?_, ?_, ?_⟩
  · unfold BringClient.get_lists
    rw [ensureConn_of_connected st env hconn]
    simp [hget]
  · unfold BringClient.get_lists
    rw [ensureConn_of_connected st env hconn]
    simp [hget]
  · intro hcache
    unfold BringClient.get_lists
    rw [ensureConn_of_connected st env hconn]
    simp [hcache, hget]

/-- Witness for C6: `envW`'s `load_lists` response has no `"lists"`
field; a forced fetch returns `[]` without raising. -/
theorem C6_get_lists_empty_catalog_witness :
    (BringClient.get_lists true stW envW).1 = Except.ok [] ∧
    (BringClient.get_lists true stW envW).2.1.listsCache = some [] :=
  ⟨(C6_get_lists_empty_catalog stW envW true rfl (Or.inl rfl)).1,
   (C6_get_lists_empty_catalog stW envW true rfl (Or.inl rfl)).2.1⟩

/-! ## C5 -/

theorem get_lists_false_eff (c : ClientState) (env : Env)
    (hc : c.connected = true) :
    BringClient.get_lists false c env =
      (Except.ok (effCatalog c env),
       { c with listsCache := some (effCatalog c env) },
       if c.listsCache.isNone then 1 else 0) := by
  obtain ⟨cc, cs, cl⟩ := c
  simp only at hc
  unfold BringClient.get_lists effCatalog
  rw [ensureConn_of_connected _ env hc]
  rcases cl with _ | L <;> simp

theorem get_list_by_name_eq (name : String) (c : ClientState) (env : Env)
    (hc : c.connected = true) :
    BringClient.get_list_by_name name c env =
      (Except.ok ((effCatalog c env).find?
          (fun l => pyLower l.name == pyLower name)),
       { c with listsCache := some (effCatalog c env) },
       if c.listsCache.isNone then 1 else 0) := by
  unfold BringClient.get_list_by_name
  rw [get_lists_false_eff c env hc]

theorem find_list_ready (name : String) (st : IntegrationState) (env : Env)
    (hi : st.clientInit = true) :
    BringIntegration.find_list name st env =
      ((BringClient.get_list_by_name name st.client env).1,
       { st with client := (BringClient.get_list_by_name name st.client env).2.1 },
       (BringClient.get_list_by_name name st.client env).2.2) := by
  unfold BringIntegration.find_list
  rw [initializeState_of_inited st env hi]

theorem resolveListUuid_not_found (n : String) (st : IntegrationState)
    (env : Env) (hn : n ≠ "") (hi : st.clientInit = true)
    (hc : st.client.connected = true)
    (hnm : ∀ l ∈ effCatalog st.client env, pyLower l.name ≠ pyLower n) :
    BringIntegration.resolveListUuid (some n) st env =
      (Except.error (Err.listNotFound n),
       { st with client :=
          { st.client with listsCache := some (effCatalog st.client env) } },
       if st.client.listsCache.isNone then 1 else 0) := by
  have ht : pyTruthy (some n) = true := by simp [pyTruthy, hn]
  have hfind : (effCatalog st.client env).find?
      (fun l => pyLower l.name == pyLower n) = none :=
    List.find?_eq_none.mpr (fun x hx => by simpa using hnm x hx)
  unfold BringIntegration.resolveListUuid
  rw [ht]
  simp only [if_true, Option.getD_some]
  rw [find_list_ready n st env hi, get_list_by_name_eq n st.client env hc, hfind]

/-- Counterexample to C5 as stated: the empty string `""` matches no
entry of the cached catalog `catW`, yet `get_items` with
`list_name = ""` does not fail with `ListNotFound("")`: since `""` is
falsy, the code takes the default-list branch and succeeds against the
stored default `"du"`. -/
theorem C5_counterexample :
    (BringIntegration.get_items (some "") istD envW).result =
      Except.ok ⟨[], []⟩ ∧
    (BringIntegration.get_items (some "") istD envW).result ≠
      Except.error (Err.listNotFound "") ∧
    (BringIntegration.get_items (some "") istD envW).itemCalls =
      [ItemCall.getList "du"] := by
  refine ⟨by decide, by decide, by decide⟩

/-- C5 (amended): for every **non-empty** name `n` matching no catalog
entry case-insensitively, each item operation given `list_name = n`
resolves it via `find_list`, fails with `ListNotFound(n)` regardless of
whether a default list is set, and issues no remote item-endpoint call.
(An empty-string `list_name` is instead treated like an absent one.) -/
theorem C5_not_found_all_ops (n : String) (st : IntegrationState) (env : Env)
    (items : List BringIntegration.ItemInput) (item_name spec : String)
    (hn : n ≠ "") (hi : st.clientInit = true)
    (hc : st.client.connected = true)
    (hnm : ∀ l ∈ effCatalog st.client env, pyLower l.name ≠ pyLower n) :
    ((BringIntegration.get_items (some n) st env).result =
        Except.error (Err.listNotFound n) ∧
      (BringIntegration.get_items (some n) st env).itemCalls = []) ∧
    ((BringIntegration.add_item item_name spec (some n) st env).result =
        Except.error (Err.listNotFound n) ∧
      (BringIntegration.add_item item_name spec (some n) st env).itemCalls = []) ∧
    ((BringIntegration.add_items items (some n) st env).result =
        Except.error (Err.listNotFound n) ∧
      (BringIntegration.add_items items (some n) st env).itemCalls = []) ∧
    ((BringIntegration.complete_item item_name (some n) st env).result =
        Except.error (Err.listNotFound n) ∧
      (BringIntegration.complete_item item_name (some n) st env).itemCalls = []) ∧
    ((BringIntegration.remove_item item_name (some n) st env).result =
        Except.error (Err.listNotFound n) ∧
      (BringIntegration.remove_item item_name (some n) st env).itemCalls = []) := by
  have hres := resolveListUuid_not_found n st env hn hi hc hnm
  refine ⟨?_, ?_, ?_, ?_, ?_⟩
  · simp only [BringIntegration.get_items, initializeState_of_inited st env hi, hres]
    exact ⟨trivial, trivial⟩
  · simp only [BringIntegration.add_item, initializeState_of_inited st env hi, hres]
    exact ⟨trivial, trivial⟩
  · simp only [BringIntegration.add_items, initializeState_of_inited st env hi, hres]
    exact ⟨trivial, trivial⟩
  · simp only [BringIntegration.complete_item, initializeState_of_inited st env hi, hres]
    exact ⟨trivial, trivial⟩
  · simp only [BringIntegration.remove_item, initializeState_of_inited st env hi, hres]
    exact ⟨trivial, trivial⟩

/-- Witness for C5 (amended): `"Groceries"` matches neither `"Foo"` nor
`"foo"`, so `get_items` with an explicit `"Groceries"` fails with
`ListNotFound` even though `istD` has a default list set, and issues no
item-endpoint call. -/
theorem C5_not_found_all_ops_witness :
    (BringIntegration.get_items (some "Groceries") istD envW).result =
      Except.error (Err.listNotFound "Groceries") ∧
    (BringIntegration.get_items (some "Groceries") istD envW).itemCalls = [] :=
  (C5_not_found_all_ops "Groceries" istD envW [] "x" "" (by decide) rfl rfl
    (by decide)).1

/-! ## C9 -/

theorem connect_error (st : ClientState) (env : Env) (e : Err)
    (c : ClientState)
    (h : BringClient.connect st env = (Except.error e, c)) :
    e = Err.loginFailed := by
  unfold BringClient.connect at h
  by_cases hc : st.connected = true
  · simp [hc] at h
  · by_cases hl : env.loginFails = true
    · simp [hc, hl] at h
      exact h.1.symm
    · simp [hc, hl] at h

theorem ensureConn_error (st : ClientState) (env : Env) (e : Err)
    (c : ClientState)
    (h : BringClient.ensureConn st env = (Except.error e, c)) :
    e = Err.loginFailed := by
  unfold BringClient.ensureConn at h
  by_cases hc : st.connected = true
  · simp [hc] at h
  · simp only [hc] at h
    exact connect_error st env e c (by simpa using h)

theorem initializeState_error (st : IntegrationState) (env : Env) (e : Err)
    (st1 : IntegrationState)
    (h : BringIntegration.initializeState st env = (Except.error e, st1)) :
    e = Err.loginFailed := by
  unfold BringIntegration.initializeState at h
  by_cases hi : st.clientInit = true
  · simp [hi] at h
  · simp [hi] at h
    rcases hcn : BringClient.connect ({} : ClientState) env with ⟨r, c⟩
    rw [hcn] at h
    cases r with
    | error e2 =>
      simp at h
      rw [← h.1]
      exact connect_error {} env e2 c hcn
    | ok _ => simp at h

/-- C9: an empty-string `list_name` is treated exactly like an absent
one by every item operation (both are falsy, so both take the
default-list branch): the operation's outcome is identical to the
`None` call; with no stored default it fails with the no-default error;
with a non-empty stored default `u` it operates on `u`; and it never
fails with `ListNotFound`. -/
theorem C9_empty_name_is_absent (st : IntegrationState) (env : Env)
    (items : List BringIntegration.ItemInput) (item_name spec : String) :
    BringIntegration.get_items (some "") st env =
      BringIntegration.get_items none st env ∧
    BringIntegration.add_item item_name spec (some "") st env =
      BringIntegration.add_item item_name spec none st env ∧
    BringIntegration.add_items items (some "") st env =
      BringIntegration.add_items items none st env ∧
    BringIntegration.complete_item item_name (some "") st env =
      BringIntegration.complete_item item_name none st env ∧
    BringIntegration.remove_item item_name (some "") st env =
      BringIntegration.remove_item item_name none st env ∧
    (st.clientInit = true → st.defaultListUuid = none →
      (BringIntegration.get_items (some "") st env).result =
        Except.error Err.noDefaultList) ∧
    (∀ u, st.clientInit = true → st.client.connected = true →
      st.defaultListUuid = some u → u ≠ "" →
      (BringIntegration.get_items (some "") st env).result =
        Except.ok (env.itemsFor u) ∧
      (BringIntegration.get_items (some "") st env).itemCalls =
        [ItemCall.getList u]) ∧
    (∀ m, (BringIntegration.get_items (some "") st env).result ≠
      Except.error (Err.listNotFound m)) := by
  have hres : ∀ s, BringIntegration.resolveListUuid (some "") s env =
      (BringIntegration.get_list_uuid none s, s, 0) := fun s => rfl
  refine ⟨rfl, rfl, rfl, rfl, rfl, ?_, ?_, ?_⟩
  · intro hi hd
    simp only [BringIntegration.get_items, initializeState_of_inited st env hi,
      hres st]
    simp [BringIntegration.get_list_uuid, pyTruthy, hd]
  · intro u hi hc hd hu
    simp only [BringIntegration.get_items, initializeState_of_inited st env hi,
      hres st]
    have hg : BringIntegration.get_list_uuid none st = Except.ok u := by
      simp [BringIntegration.get_list_uuid, pyTruthy, hd, hu]
    simp only [hg]
    simp [BringClient.get_items, ensureConn_of_connected st.client env hc]
  · intro m
    unfold BringIntegration.get_items
    rcases hinit : BringIntegration.initializeState st env with ⟨r, st1⟩
    cases r with
    | error e =>
      have he : e = Err.loginFailed := initializeState_error st env e st1 hinit
      subst he
      simp
    | ok _ =>
      simp only [hres st1]
      cases hu : BringIntegration.get_list_uuid none st1 with
      | error e =>
        have he : e = Err.noDefaultList := by
          simp only [BringIntegration.get_list_uuid, pyTruthy] at hu
          rcases hd : st1.defaultListUuid with _ | u
          · rw [hd] at hu
            simp at hu
            exact hu.symm
          · rw [hd] at hu
            by_cases h2 : (u != "") = true
            · simp [h2] at hu
            · simp [h2] at hu
              exact hu.symm
        subst he
        simp
      | ok u =>
        unfold BringClient.get_items
        rcases he2 : BringClient.ensureConn st1.client env with ⟨r2, c2⟩
        cases r2 with
        | error e2 =>
          have he3 : e2 = Err.loginFailed :=
            ensureConn_error st1.client env e2 c2 he2
          subst he3
          simp [he2]
        | ok _ => simp [he2]

/-- Witness for C9: with default `"du"` stored (state `istD`),
`get_items` with `list_name = ""` succeeds against `"du"`. -/
theorem C9_empty_name_is_absent_witness :
    (BringIntegration.get_items (some "") istD envW).result =
      Except.ok (envW.itemsFor "du") ∧
    (BringIntegration.get_items (some "") istD envW).itemCalls =
      [ItemCall.getList "du"] :=
  (C9_empty_name_is_absent istD envW [] "x" "").2.2.2.2.2.2.1 "du" rfl rfl rfl
    (by decide)

/-! ## C7 -/

theorem resolveListUuid_default (ln : Option String) (st : IntegrationState)
    (env : Env) :
    (BringIntegration.resolveListUuid ln st env).2.1.defaultListUuid =
      st.defaultListUuid := by
  unfold BringIntegration.resolveListUuid
  by_cases h : pyTruthy ln = true
  · simp only [h, if_true]
    have hfd := find_list_default (ln.getD "") st env
    rcases hf : BringIntegration.find_list (ln.getD "") st env with ⟨r, st1, k⟩
    rw [hf] at hfd
    simp only at hfd
    cases r with
    | error e => simpa using hfd
    | ok o => cases o <;> simpa using hfd
  · simp [h]

theorem get_items_default (ln : Option String) (st : IntegrationState)
    (env : Env) :
    (BringIntegration.get_items ln st env).state.defaultListUuid =
      st.defaultListUuid := by
  unfold BringIntegration.get_items
  rcases hi : BringIntegration.initializeState st env with ⟨r, st1⟩
  have h1 : st1.defaultListUuid = st.defaultListUuid := by
    have := initializeState_default st env
    rw [hi] at this
    exact this
  cases r with
  | error e => simpa using h1
  | ok _ =>
    rcases hr : BringIntegration.resolveListUuid ln st1 env with ⟨r2, st2, k⟩
    have h2 : st2.defaultListUuid = st1.defaultListUuid := by
      have := resolveListUuid_default ln st1 env
      rw [hr] at this
      exact this
    simp only [hr]
    cases r2 with
    | error e => simpa using h2.trans h1
    | ok uuid =>
      rcases hg : BringClient.get_items uuid st2.client env with ⟨r3, c, calls⟩
      simpa using h2.trans h1

theorem add_item_default (item_name spec : String) (ln : Option String)
    (st : IntegrationState) (env : Env) :
    (BringIntegration.add_item item_name spec ln st env).state.defaultListUuid =
      st.defaultListUuid := by
  unfold BringIntegration.add_item
  rcases hi : BringIntegration.initializeState st env with ⟨r, st1⟩
  have h1 : st1.defaultListUuid = st.defaultListUuid := by
    have := initializeState_default st env
    rw [hi] at this
    exact this
  cases r with
  | error e => simpa using h1
  | ok _ =>
    rcases hr : BringIntegration.resolveListUuid ln st1 env with ⟨r2, st2, k⟩
    have h2 : st2.defaultListUuid = st1.defaultListUuid := by
      have := resolveListUuid_default ln st1 env
      rw [hr] at this
      exact this
    simp only [hr]
    cases r2 with
    | error e => simpa using h2.trans h1
    | ok uuid =>
      rcases hg : BringClient.add_item uuid item_name spec st2.client env with
        ⟨r3, c, calls⟩
      simpa using h2.trans h1

theorem add_items_default (items : List BringIntegration.ItemInput)
    (ln : Option String) (st : IntegrationState) (env : Env) :
    (BringIntegration.add_items items ln st env).state.defaultListUuid =
      st.defaultListUuid := by
  unfold BringIntegration.add_items
  rcases hi : BringIntegration.initializeState st env with ⟨r, st1⟩
  have h1 : st1.defaultListUuid = st.defaultListUuid := by
    have := initializeState_default st env
    rw [hi] at this
    exact this
  cases r with
  | error e => simpa using h1
  | ok _ =>
    rcases hr : BringIntegration.resolveListUuid ln st1 env with ⟨r2, st2, k⟩
    have h2 : st2.defaultListUuid = st1.defaultListUuid := by
      have := resolveListUuid_default ln st1 env
      rw [hr] at this
      exact this
    simp only [hr]
    cases r2 with
    | error e => simpa using h2.trans h1
    | ok uuid =>
      rcases hg : BringClient.batch_add_items uuid
          (BringIntegration.formatItems items) st2.client env with ⟨r3, c, calls⟩
      simpa using h2.trans h1

theorem complete_item_default (item_name : String) (ln : Option String)
    (st : IntegrationState) (env : Env) :
    (BringIntegration.complete_item item_name ln st env).state.defaultListUuid =
      st.defaultListUuid := by
  unfold BringIntegration.complete_item
  rcases hi : BringIntegration.initializeState st env with ⟨r, st1⟩
  have h1 : st1.defaultListUuid = st.defaultListUuid := by
    have := initializeState_default st env
    rw [hi] at this
    exact this
  cases r with
  | error e => simpa using h1
  | ok _ =>
    rcases hr : BringIntegration.resolveListUuid ln st1 env with ⟨r2, st2, k⟩
    have h2 : st2.defaultListUuid = st1.defaultListUuid := by
      have := resolveListUuid_default ln st1 env
      rw [hr] at this
      exact this
    simp only [hr]
    cases r2 with
    | error e => simpa using h2.trans h1
    | ok uuid =>
      rcases hg : BringClient.complete_item uuid item_name st2.client env with
        ⟨r3, c, calls⟩
      simpa using h2.trans h1

theorem remove_item_default (item_name : String) (ln : Option String)
    (st : IntegrationState) (env : Env) :
    (BringIntegration.remove_item item_name ln st env).state.defaultListUuid =
      st.defaultListUuid := by
  unfold BringIntegration.remove_item
  rcases hi : BringIntegration.initializeState st env with ⟨r, st1⟩
  have h1 : st1.defaultListUuid = st.defaultListUuid := by
    have := initializeState_default st env
    rw [hi] at this
    exact this
  cases r with
  | error e => simpa using h1
  | ok _ =>
    rcases hr : BringIntegration.resolveListUuid ln st1 env with ⟨r2, st2, k⟩
    have h2 : st2.defaultListUuid = st1.defaultListUuid := by
      have := resolveListUuid_default ln st1 env
      rw [hr] at this
      exact this
    simp only [hr]
    cases r2 with
    | error e => simpa using h2.trans h1
    | ok uuid =>
      rcases hg : BringClient.remove_item uuid item_name st2.client env with
        ⟨r3, c, calls⟩
      simpa using h2.trans h1

theorem cleanup_default (st : IntegrationState) :
    (BringIntegration.cleanup st).defaultListUuid = st.defaultListUuid := by
  unfold BringIntegration.cleanup
  by_cases h : st.clientInit = true <;> simp [h]

theorem set_default_not_true (name : String) (st : IntegrationState)
    (env : Env)
    (h : (BringIntegration.set_default_list name st env).1 ≠ Except.ok true) :
    (BringIntegration.set_default_list name st env).2.1.defaultListUuid =
      st.defaultListUuid := by
  have hfd := find_list_default name st env
  unfold BringIntegration.set_default_list at h ⊢
  rcases hf : BringIntegration.find_list name st env with ⟨r, st1, k⟩
  rw [hf] at hfd
  simp only at hfd
  cases r with
  | error e => simpa using hfd
  | ok o =>
    cases o with
    | none => simpa using hfd
    | some lst =>
      rw [hf] at h
      simp at h

/-- C7: the stored default list identifier persists: `get_lists`,
`find_list`, all five item operations, `cleanup`, `initialize`, and any
`set_default_list` call that does not return `True`, all leave
`_default_list_uuid` exactly as it was. -/
theorem C7_default_persists (st : IntegrationState) (env : Env)
    (name item_name spec : String) (ln : Option String)
    (items : List BringIntegration.ItemInput) :
    (BringIntegration.get_lists st env).2.1.defaultListUuid =
      st.defaultListUuid ∧
    (BringIntegration.find_list name st env).2.1.defaultListUuid =
      st.defaultListUuid ∧
    (BringIntegration.get_items ln st env).state.defaultListUuid =
      st.defaultListUuid ∧
    (BringIntegration.add_item item_name spec ln st env).state.defaultListUuid =
      st.defaultListUuid ∧
    (BringIntegration.add_items items ln st env).state.defaultListUuid =
      st.defaultListUuid ∧
    (BringIntegration.complete_item item_name ln st env).state.defaultListUuid =
      st.defaultListUuid ∧
    (BringIntegration.remove_item item_name ln st env).state.defaultListUuid =
      st.defaultListUuid ∧
    (BringIntegration.cleanup st).defaultListUuid = st.defaultListUuid ∧
    (BringIntegration.initializeState st env).2.defaultListUuid =
      st.defaultListUuid ∧
    ((BringIntegration.set_default_list name st env).1 ≠ Except.ok true →
      (BringIntegration.set_default_list name st env).2.1.defaultListUuid =
        st.defaultListUuid) :=
  ⟨get_lists_client_default st env,
   find_list_default name st env,
   get_items_default ln st env,
   add_item_default item_name spec ln st env,
   add_items_default items ln st env,
   complete_item_default item_name ln st env,
   remove_item_default item_name ln st env,
   cleanup_default st,
   initializeState_default st env,
   set_default_not_true name st env⟩

/-- Witness for C7: on the concrete session state `istD` (default
`"du"`), `get_items` with the default list leaves the default at
`"du"`, and a failed `set_default_list "Nope"` leaves it unchanged. -/
theorem C7_default_persists_witness :
    (BringIntegration.get_items none istD envW).state.defaultListUuid =
      istD.defaultListUuid ∧
    ((BringIntegration.set_default_list "Nope" istD envW).1 ≠
        Except.ok true →
      (BringIntegration.set_default_list "Nope" istD envW).2.1.defaultListUuid =
        istD.defaultListUuid) ∧
    (BringIntegration.set_default_list "Nope" istD envW).1 ≠ Except.ok true :=
  ⟨(C7_default_persists istD envW "Nope" "x" "" none []).2.2.1,
   (C7_default_persists istD envW "Nope" "x" "" none []).2.2.2.2.2.2.2.2.2,
   by decide⟩

/-! ## C8 -/

/-- C8 (code bug): the scoped-acquisition requirement fails on the
login error path.  First conjunct pair: when `bring.login()` raises
inside `connect` during `__aenter__`, the `aiohttp.ClientSession`
created just before remains open when the `async with` scope is exited
(`__aexit__` is not invoked after a failed `__aenter__`, and `connect`
itself does not close the session on failure).  Remaining conjuncts:
when login succeeds, the session is closed on both the exceptional and
the normal exit path of the body. -/
theorem C8_connection_leak :
    ((BringIntegration.withSession (fun st _ => (Except.ok (), st))
        { loginFails := true, listsResponse := none,
          itemsFor := fun _ => ⟨[], []⟩ }).1 =
      Except.error Err.loginFailed ∧
     (BringIntegration.withSession (fun st _ => (Except.ok (), st))
        { loginFails := true, listsResponse := none,
          itemsFor := fun _ => ⟨[], []⟩ }).2.client.sessionOpen = true) ∧
    ((BringIntegration.withSession
        (fun st _ => (Except.error (Err.listNotFound "x"), st))
        envW).1 = Except.error (Err.listNotFound "x") ∧
     (BringIntegration.withSession
        (fun st _ => (Except.error (Err.listNotFound "x"), st))
        envW).2.client.sessionOpen = false) ∧
    (BringIntegration.withSession (fun st _ => (Except.ok (), st))
        envW).2.client.sessionOpen = false := by
  refine ⟨⟨by decide, by decide⟩, ⟨by decide, by decide⟩, by decide⟩

/-! ## C10 -/

theorem formatItems_length (items : List BringIntegration.ItemInput) :
    (BringIntegration.formatItems items).length ≤ items.length := by
  induction items with
  | nil => simp [BringIntegration.formatItems]
  | cons x rest ih =>
    cases x with
    | str s =>
      simp only [BringIntegration.formatItems, List.length_cons]
      omega
    | dict n i sp spec =>
      simp only [BringIntegration.formatItems, List.length_cons]
      omega
    | other =>
      simp only [BringIntegration.formatItems, List.length_cons]
      omega

/-- C10: `add_items` normalizes its batch before delegating.  A string
element `s` becomes `{itemId: s}` with no `spec` key; a dict element
becomes `{itemId: d.get("name", d.get("itemId")),
spec: d.get("spec", d.get("specification", ""))}`; any other element is
silently dropped, so the normalized batch is never longer than the
input.  On an initialized, connected session with a non-empty default
`u`, `add_items items` sends exactly one `batchAdd` call carrying the
normalized batch to list `u` and reports success. -/
theorem C10_add_items_normalization (items rest : List BringIntegration.ItemInput)
    (s : String) (n i sp spec : Option String) (st : IntegrationState)
    (env : Env) (u : String) (hi : st.clientInit = true)
    (hc : st.client.connected = true) (hd : st.defaultListUuid = some u)
    (hu : u ≠ "") :
    BringIntegration.formatItems (BringIntegration.ItemInput.str s :: rest) =
      ⟨some s, none⟩ :: BringIntegration.formatItems rest ∧
    BringIntegration.formatItems
        (BringIntegration.ItemInput.dict n i sp spec :: rest) =
      ⟨n.orElse (fun _ => i), some (sp.getD (spec.getD ""))⟩ ::
        BringIntegration.formatItems rest ∧
    BringIntegration.formatItems (BringIntegration.ItemInput.other :: rest) =
      BringIntegration.formatItems rest ∧
    (BringIntegration.formatItems items).length ≤ items.length ∧
    BringIntegration.add_items items none st env =
      ⟨Except.ok true, st, 0,
        [ItemCall.batchAdd u (BringIntegration.formatItems items)]⟩ := by
  refine ⟨rfl, rfl, rfl, formatItems_length items, ?_⟩
  have hres : BringIntegration.resolveListUuid none st env =
      (BringIntegration.get_list_uuid none st, st, 0) := rfl
  have hg : BringIntegration.get_list_uuid none st = Except.ok u := by
    simp [BringIntegration.get_list_uuid, pyTruthy, hd, hu]
  simp only [BringIntegration.add_items, initializeState_of_inited st env hi,
    hres, hg]
  simp [BringClient.batch_add_items, ensureConn_of_connected st.client env hc]

/-- Witness for C10: on session state `istD` (default `"du"`), a mixed
batch with a string, a non-dict non-string element and a dict is
normalized — the stray element is dropped — and sent in one `batchAdd`
call. -/
theorem C10_add_items_normalization_witness :
    BringIntegration.add_items
        [BringIntegration.ItemInput.str "Eggs",
         BringIntegration.ItemInput.other,
         BringIntegration.ItemInput.dict (some "Milk") none none (some "1l")]
        none istD envW =
      ⟨Except.ok true, istD, 0,
        [ItemCall.batchAdd "du"
          (BringIntegration.formatItems
            [BringIntegration.ItemInput.str "Eggs",
             BringIntegration.ItemInput.other,
             BringIntegration.ItemInput.dict (some "Milk") none none
               (some "1l")])]⟩ ∧
    BringIntegration.formatItems
        [BringIntegration.ItemInput.str "Eggs",
         BringIntegration.ItemInput.other,
         BringIntegration.ItemInput.dict (some "Milk") none none (some "1l")] =
      [⟨some "Eggs", none⟩, ⟨some "Milk", some "1l"⟩] :=
  ⟨(C10_add_items_normalization
      [BringIntegration.ItemInput.str "Eggs",
       BringIntegration.ItemInput.other,
       BringIntegration.ItemInput.dict (some "Milk") none none (some "1l")]
      [] "x" none none none none istD envW "du" rfl rfl rfl
      (by decide)).2.2.2.2,
   by decide⟩
